import Mathlib

/-!
Verification of the RainWatch weather-station service (src/main.py,
src/database.py) against its specification.

The Python source is shallowly embedded: each endpoint handler becomes a
pure Lean function over an explicit database state (lists of users,
devices and readings); Python floats are modelled as rationals, byte
strings as lists of naturals, and exceptions as `Except` values.
-/

deriving instance DecidableEq for Except

namespace RainWatch

/-! ## Character and string utilities

SQLite's built-in `lower`/`upper` and the default `LIKE` operator are
ASCII-only case-insensitive; Python's `str.upper` is modelled on the
ASCII range the device codes use. -/

/-- ASCII lower-casing of one character, as SQLite `lower()` performs it. -/
def charLower (c : Char) : Char :=
  if 'A' ≤ c && c ≤ 'Z' then Char.ofNat (c.toNat + 32) else c

/-- ASCII upper-casing of one character, modelling `str.upper()` on the
ASCII device codes this application uses. -/
def charUpper (c : Char) : Char :=
  if 'a' ≤ c && c ≤ 'z' then Char.ofNat (c.toNat - 32) else c

/-- `str.upper()` applied to a whole string. -/
def strUpper (s : String) : String := ⟨s.data.map charUpper⟩

/-- Lower-cased character list of a string, used to compare strings the
way SQLite's case-insensitive machinery does. -/
def lowerData (s : String) : List Char := s.data.map charLower

/-- Python `str.isspace` characters relevant to `str.strip()`. -/
def pyIsSpace (c : Char) : Bool :=
  c = ' ' || c = '\t' || c = '\n' || c = '\x0d' || c = '\x0b' || c = '\x0c'

/-- Python `str.strip()`: drop leading and trailing whitespace. -/
def pyStrip (s : String) : String :=
  ⟨((s.data.dropWhile pyIsSpace).reverse.dropWhile pyIsSpace).reverse⟩

/-! ## SQL LIKE pattern matching

`Device.device_code.ilike(x)` compiles to `lower(device_code) LIKE
lower(x)`: the argument is a LIKE *pattern*, where `%` matches any
(possibly empty) substring and `_` matches exactly one character, and the
match must cover the whole string.  The matcher is written with explicit
fuel so that it is structurally recursive and kernel-computable; one unit
of fuel is consumed per pattern or text character, so
`|pattern| + |text| + 1` fuel always suffices. -/

/-- Fuelled LIKE matcher over character lists (pattern, then text). -/
def likeMatchAux : Nat → List Char → List Char → Bool
  | 0, _, _ => false
  | fuel + 1, ps, ts =>
    match ps with
    | [] => ts.isEmpty
    | p :: ps' =>
      if p = '%' then
        likeMatchAux fuel ps' ts ||
          (match ts with
           | [] => false
           | _ :: ts' => likeMatchAux fuel ps ts')
      else
        match ts with
        | [] => false
        | t :: ts' =>
          if p = '_' then likeMatchAux fuel ps' ts'
          else p == t && likeMatchAux fuel ps' ts'

/-- Full-string LIKE match of `text` against `pattern`. -/
def likeMatch (pattern text : List Char) : Bool :=
  likeMatchAux (pattern.length + text.length + 1) pattern text

/-- `stored_code ILIKE pattern` as SQLAlchemy renders it on SQLite:
both sides are lower-cased, then LIKE-matched. -/
def ilikeMatch (stored pattern : String) : Bool :=
  likeMatch (lowerData pattern) (lowerData stored)

/-! ## Byte strings and UTF-8

Python's `str.encode("utf-8")` is modelled as standard UTF-8 encoding of
the string's code points into a list of byte values; `bytes.decode` for
the ASCII output bcrypt produces is modelled by mapping each byte to the
character with that code point. -/

/-- UTF-8 encoding of one code point. -/
def utf8Char (c : Nat) : List Nat :=
  if c < 128 then [c]
  else if c < 2048 then [192 + c / 64, 128 + c % 64]
  else if c < 65536 then [224 + c / 4096, 128 + (c / 64) % 64, 128 + c % 64]
  else [240 + c / 262144, 128 + (c / 4096) % 64, 128 + (c / 64) % 64, 128 + c % 64]

/-- `s.encode("utf-8")` as a list of byte values. -/
def utf8Encode (s : String) : List Nat :=
  (s.data.map (fun ch => utf8Char ch.toNat)).flatten

/-- `bytes.decode("utf-8")` restricted to ASCII byte lists (the only form
bcrypt digests take). -/
def asciiDecode (bs : List Nat) : String := ⟨bs.map Char.ofNat⟩

/-! ## Password hashing (src/database.py)

`bcrypt.gensalt`/`bcrypt.hashpw`/`bcrypt.checkpw` are modelled
abstractly: a digest is the 4 magic bytes of the format marker, a
16-byte salt, and a deterministic core derived from the password bytes
(truncated at bcrypt's 72-byte limit) and the salt, serialized to ASCII
bytes in the range 48–63.  `bcrypt.checkpw` re-derives the digest from
the stored salt and compares; a digest that does not carry the format
marker (or is too short to carry a salt) raises `ValueError`, modelled
as `Except.error`.  The cryptographic strength of the core is irrelevant
to the claims, which concern the truncation plumbing and error handling
of the wrappers in src/database.py. -/

/-- Format-marker bytes of a modelled bcrypt digest. -/
def bcryptMagic : List Nat := [36, 50, 98, 36]

/-- Serialize one byte into two ASCII bytes (range 48–63). -/
def hexByte (b : Nat) : List Nat := [48 + b / 16, 48 + b % 16]

/-- The deterministic digest core over the truncated password and salt. -/
def bcryptCore (pw salt : List Nat) : List Nat :=
  ((pw.take 72) ++ salt).flatMap hexByte

/-- Model of `bcrypt.hashpw(pw, salt)`: marker, salt, core. -/
def bcrypt_hashpw (pw salt : List Nat) : List Nat :=
  bcryptMagic ++ salt ++ bcryptCore pw salt

/-- Model of `bcrypt.checkpw(pw, digest)`: parse the digest (raising
`ValueError` when structurally invalid), re-derive with the embedded
salt, and compare. -/
def bcrypt_checkpw (pw digest : List Nat) : Except String Bool :=
  if digest.take 4 = bcryptMagic ∧ 20 ≤ digest.length then
    .ok (digest == bcrypt_hashpw pw ((digest.drop 4).take 16))
  else
    .error "Invalid salt"

/-- `get_password_hash` from src/database.py: encode the password as
UTF-8, truncate to 72 bytes, hash with a fresh salt (passed explicitly
here to model `bcrypt.gensalt()`), and decode the digest to `str`. -/
def get_password_hash (password : String) (salt : List Nat) : String :=
  asciiDecode (bcrypt_hashpw ((utf8Encode password).take 72) salt)

/-- `verify_password` from src/database.py: encode both arguments,
truncate the plaintext to 72 bytes, check, and turn a `ValueError` or
`TypeError` from the bcrypt layer into `false`. -/
def verify_password (plain_password hashed_password : String) : Bool :=
  match bcrypt_checkpw ((utf8Encode plain_password).take 72)
      (utf8Encode hashed_password) with
  | .ok b => b
  | .error _ => false

/-! ## JWT tokens (python-jose) and the session resolver (src/main.py)

A cookie value is either the empty string, a structurally malformed
token, or a well-formed signed token carrying the signing key it was
minted with, an optional `sub` claim and an `exp` timestamp (seconds).
`jwt.decode` rejects a malformed token, a signature made with a
different key, and an expired token, all with `JWTError`; times are
integer epoch seconds. -/

/-- A possible value of the `access_token` cookie. -/
inductive Token where
  /-- The empty string (falsy in Python's `if not token`). -/
  | empty : Token
  /-- A string that is not a structurally valid JWT. -/
  | malformed : Token
  /-- A well-formed JWT signed with `key`, with subject claim `sub`
  (absent when the dict passed to `jwt.encode` had no `"sub"`) and
  expiry `exp`. -/
  | signed (key : Nat) (sub : Option String) (exp : Int) : Token
deriving DecidableEq

/-- Failure modes of `jwt.decode`, all subclasses of `JWTError`. -/
inductive JWTError where
  | malformed : JWTError
  | badSignature : JWTError
  | expired : JWTError
deriving DecidableEq

/-- Decoded claim set: the `sub` claim as `payload.get("sub")` sees it. -/
structure Payload where
  sub : Option String
deriving DecidableEq

/-- Model of `jwt.decode(token, key, algorithms=[ALGORITHM])`: rejects
malformed tokens, wrong signatures, and tokens whose `exp` lies in the
past (python-jose raises `ExpiredSignatureError` when `exp < now`). -/
def jwt_decode (t : Token) (key : Nat) (now : Int) : Except JWTError Payload :=
  match t with
  | .empty => .error .malformed
  | .malformed => .error .malformed
  | .signed k sub exp =>
    if k ≠ key then .error .badSignature
    else if exp < now then .error .expired
    else .ok ⟨sub⟩

/-- `ACCESS_TOKEN_EXPIRE_MINUTES` from src/main.py. -/
def ACCESS_TOKEN_EXPIRE_MINUTES : Int := 30

/-- `create_access_token` from src/main.py.  The `data` dict is
represented by its `"sub"` entry; `expires_delta` is in seconds, and the
Python `if expires_delta:` test is truthiness, so a zero delta also
falls back to the hard-coded 15-minute default. -/
def create_access_token (key : Nat) (sub : Option String) (now : Int)
    (expires_delta : Option Int) : Token :=
  Token.signed key sub
    (if (match expires_delta with | none => false | some d => d != 0)
     then now + expires_delta.getD 0
     else now + 15 * 60)

/-- The token the `/login` endpoint issues after a successful password
check: it always passes `timedelta(minutes=ACCESS_TOKEN_EXPIRE_MINUTES)`
explicitly. -/
def login_issued_token (key : Nat) (username : String) (now : Int) : Token :=
  create_access_token key (some username) now (some (ACCESS_TOKEN_EXPIRE_MINUTES * 60))

/-- A row of the `users` table. -/
structure DBUser where
  id : Nat
  username : String
  hashed_password : String
deriving DecidableEq

/-- `get_current_user` from src/main.py: read the `access_token` cookie
(absent or empty means unauthenticated), decode it, read the `sub`
claim, and look the username up in the `users` table. -/
def get_current_user (cookie : Option Token) (key : Nat) (now : Int)
    (users : List DBUser) : Option DBUser :=
  match cookie with
  | none => none
  | some t =>
    if t = Token.empty then none
    else
      match jwt_decode t key now with
      | .error _ => none
      | .ok payload =>
        match payload.sub with
        | none => none
        | some username => users.find? (fun u => u.username == username)

/-! ## Database rows and the JSON/HTML endpoints (src/main.py)

Floats are modelled as rationals; every SQLAlchemy column is nullable,
so the float columns are `Option Rat`.  A handler is a pure function
from the request data and the relevant table contents to an HTTP status
together with the table contents after the request. -/

/-- A row of the `devices` table. -/
structure Device where
  id : Nat
  device_code : String
  name : String
  latitude : Option Rat
  longitude : Option Rat
  user_id : Nat
deriving DecidableEq

/-- A row of the `readings` table. -/
structure Reading where
  id : Nat
  timestamp : Int
  temperature : Option Rat
  pressure : Option Rat
  humidity : Option Rat
  device_id : Nat
deriving DecidableEq

/-- `db.query(Device).filter(Device.device_code.ilike(pat)).first()`. -/
def findDeviceByCode (devices : List Device) (pat : String) : Option Device :=
  devices.find? (fun d => ilikeMatch d.device_code pat)

/-- A JSON value as far as Pydantic float validation is concerned:
a number, JSON `null`, or anything else (non-numeric). -/
inductive JsonVal where
  | num (q : Rat) : JsonVal
  | null : JsonVal
  | other : JsonVal
deriving DecidableEq

/-- The raw JSON body of a `POST /api/sensor-data` request: each field
is present with some JSON value, or absent. -/
structure RawBody where
  temperature_c : Option JsonVal
  humidity : Option JsonVal
  pressure : Option JsonVal
deriving DecidableEq

/-- The validated `SensorData` Pydantic model from src/main.py. -/
structure SensorData where
  temperature_c : Rat
  humidity : Rat
  pressure : Option Rat
deriving DecidableEq

/-- Pydantic validation of a required `float` field: absent, `null` and
non-numeric values are rejected (FastAPI answers 422). -/
def parseRequiredFloat (v : Option JsonVal) : Except Nat Rat :=
  match v with
  | some (.num q) => .ok q
  | _ => .error 422

/-- Pydantic validation of `Optional[float] = None`: absent and `null`
yield `None`; non-numeric values are rejected. -/
def parseOptionalFloat (v : Option JsonVal) : Except Nat (Option Rat) :=
  match v with
  | none => .ok none
  | some (.num q) => .ok (some q)
  | some .null => .ok none
  | some .other => .error 422

/-- FastAPI's validation of the request body against `SensorData`,
performed before the endpoint function is invoked. -/
def parseSensorData (b : RawBody) : Except Nat SensorData :=
  match parseRequiredFloat b.temperature_c with
  | .error e => .error e
  | .ok t =>
    match parseRequiredFloat b.humidity with
    | .error e => .error e
    | .ok h =>
      match parseOptionalFloat b.pressure with
      | .error e => .error e
      | .ok p => .ok ⟨t, h, p⟩

/-- A raw `POST /api/sensor-data` request: the `deviceCode` header (of
which `None` means absent) and the JSON body. -/
structure RawRequest where
  deviceCode : Option String
  body : RawBody
deriving DecidableEq

/-- Result of an ingestion request: HTTP status and the `readings`
table after the request. -/
structure IngestOutcome where
  status : Nat
  readings : List Reading
deriving DecidableEq

/-- `receive_sensor_data` from src/main.py, including the framework
steps that run before the handler body: FastAPI validates the JSON body
against `SensorData` first (422 on failure); the handler then requires a
non-empty `deviceCode` header (400), strips it, looks the device up with
`ilike` (404), and finally inserts the reading (201). -/
def receive_sensor_data (req : RawRequest) (devices : List Device)
    (readings : List Reading) (now : Int) (nextId : Nat) : IngestOutcome :=
  match parseSensorData req.body with
  | .error e => ⟨e, readings⟩
  | .ok sensor_data =>
    match req.deviceCode with
    | none => ⟨400, readings⟩
    | some device_code =>
      if device_code = "" then ⟨400, readings⟩
      else
        let cleaned_code := pyStrip device_code
        match findDeviceByCode devices cleaned_code with
        | none => ⟨404, readings⟩
        | some device =>
          ⟨201, readings ++ [{ id := nextId
                             , timestamp := now
                             , temperature := some sensor_data.temperature_c
                             , pressure := sensor_data.pressure
                             , humidity := some sensor_data.humidity
                             , device_id := device.id }]⟩

/-- The raw form fields of `POST /account/register-device`; `None`
means the field was absent from the form. -/
structure RegisterForm where
  device_code : Option String
  device_name : Option String
  latitude : Option Rat
  longitude : Option Rat
deriving DecidableEq

/-- Result of a device-registration request: HTTP status and the
`devices` table after the request. -/
structure RegisterOutcome where
  status : Nat
  devices : List Device
deriving DecidableEq

/-- `register_device` from src/main.py, including the framework step
that runs first: all four fields are declared `Form(...)` (required), so
FastAPI rejects a request missing any of them with 422 before the
handler body runs.  The handler then redirects to `/login` (303) when
there is no session user, answers 400 when a case-insensitive `ilike`
match for the code exists, and otherwise stores the device with the
code upper-cased (303 redirect to `/account`). -/
def register_device (form : RegisterForm) (userId : Option Nat)
    (devices : List Device) (nextId : Nat) : RegisterOutcome :=
  match form.device_code, form.device_name, form.latitude, form.longitude with
  | some device_code, some device_name, some lat, some lon =>
    (match userId with
     | none => ⟨303, devices⟩
     | some uid =>
       if (findDeviceByCode devices device_code).isSome then ⟨400, devices⟩
       else ⟨303, devices ++ [{ id := nextId
                              , device_code := strUpper device_code
                              , name := device_name
                              , latitude := some lat
                              , longitude := some lon
                              , user_id := uid }]⟩)
  | _, _, _, _ => ⟨422, devices⟩

/-! ## `GET /api/devices/{device_id}/latest` (src/main.py) -/

/-- The `LatestReading` response model from src/main.py. -/
structure LatestReading where
  device_id : Nat
  device_name : String
  temperature : Option Rat
  humidity : Option Rat
  pressure : Option Rat
  timestamp : Option Int
  rain_chance : Nat
deriving DecidableEq

/-- `ORDER BY timestamp DESC ... first()` over the readings of one
device: a reading with maximal timestamp (ties resolved arbitrarily by
the storage engine; this model keeps the earliest such row). -/
def latestFor (readings : List Reading) (device_id : Nat) : Option Reading :=
  (readings.filter (fun r => r.device_id == device_id)).foldl
    (fun acc r =>
      match acc with
      | none => some r
      | some a => if r.timestamp > a.timestamp then some r else acc)
    none

/-- The rain-chance computation in `get_latest_reading`: the bands run
only under Python's `if latest_reading and latest_reading.humidity:`, so
a missing reading, a NULL humidity, and a humidity of exactly 0 all
leave the initial value 0 in place. -/
def computeRainChance (latest : Option Reading) : Nat :=
  match latest with
  | none => 0
  | some r =>
    match r.humidity with
    | none => 0
    | some h =>
      if h ≠ 0 then
        if h > 80 then 75
        else if h > 60 then 45
        else if h > 40 then 20
        else 5
      else 0

/-- `get_latest_reading` from src/main.py: 404 when the device id is
unknown, otherwise the latest reading's fields (all `None` when the
device has no readings) plus the computed rain chance. -/
def get_latest_reading (device_id : Nat) (devices : List Device)
    (readings : List Reading) : Except Nat LatestReading :=
  match devices.find? (fun d => d.id == device_id) with
  | none => .error 404
  | some device =>
    let latest_reading := latestFor readings device_id
    .ok { device_id := device.id
        , device_name := device.name
        , temperature := latest_reading.bind (fun r => r.temperature)
        , humidity := latest_reading.bind (fun r => r.humidity)
        , pressure := latest_reading.bind (fun r => r.pressure)
        , timestamp := latest_reading.map (fun r => r.timestamp)
        , rain_chance := computeRainChance latest_reading }

/-- The rain-chance projector exactly as §4.8 of the specification words
it: four fixed bands with `otherwise → 5`.  Kept separate from
`computeRainChance` (which is translated from the code) so the two can
be compared. -/
def spec_project (humidity : Rat) : Nat :=
  if humidity > 80 then 75
  else if humidity > 60 then 45
  else if humidity > 40 then 20
  else 5

/-! ## Helper lemmas -/

/-- Computation rule: empty pattern. -/
theorem likeMatchAux_nil (f : Nat) (ts : List Char) :
    likeMatchAux (f + 1) [] ts = ts.isEmpty := rfl

/-- Computation rule: `%` head, empty text. -/
theorem likeMatchAux_pct_nil (f : Nat) (ps : List Char) :
    likeMatchAux (f + 1) ('%' :: ps) [] = likeMatchAux f ps [] := by
  simp [likeMatchAux]

/-- Computation rule: `%` head, nonempty text. -/
theorem likeMatchAux_pct_cons (f : Nat) (ps : List Char) (t : Char) (ts : List Char) :
    likeMatchAux (f + 1) ('%' :: ps) (t :: ts) =
      (likeMatchAux f ps (t :: ts) || likeMatchAux f ('%' :: ps) ts) := by
  simp [likeMatchAux]

/-- Computation rule: non-`%` head, empty text. -/
theorem likeMatchAux_char_nil (f : Nat) (p : Char) (ps : List Char) (hp : p ≠ '%') :
    likeMatchAux (f + 1) (p :: ps) [] = false := by
  simp [likeMatchAux, hp]

/-- Computation rule: non-`%` head, nonempty text. -/
theorem likeMatchAux_char_cons (f : Nat) (p : Char) (ps : List Char)
    (t : Char) (ts : List Char) (hp : p ≠ '%') :
    likeMatchAux (f + 1) (p :: ps) (t :: ts) =
      (if p = '_' then likeMatchAux f ps ts else p == t && likeMatchAux f ps ts) := by
  simp [likeMatchAux, hp]

/-- Fuel monotonicity: a successful match stays successful with more fuel. -/
theorem likeMatchAux_mono : ∀ {f g : Nat} (ps ts : List Char), f ≤ g →
    likeMatchAux f ps ts = true → likeMatchAux g ps ts = true := by
  intro f
  induction f with
  | zero => intro g ps ts _ h; simp [likeMatchAux] at h
  | succ f ih =>
    intro g ps ts hfg h
    obtain ⟨g, rfl⟩ : ∃ g', g = g' + 1 := ⟨g - 1, by omega⟩
    match ps with
    | [] =>
      rw [likeMatchAux_nil] at h ⊢; exact h
    | p :: ps' =>
      by_cases hp : p = '%'
      · subst hp
        match ts with
        | [] =>
          rw [likeMatchAux_pct_nil] at h ⊢
          exact ih ps' [] (by omega) h
        | t :: ts' =>
          rw [likeMatchAux_pct_cons] at h ⊢
          rw [Bool.or_eq_true] at h ⊢
          rcases h with h' | h'
          · exact Or.inl (ih ps' (t :: ts') (by omega) h')
          · exact Or.inr (ih ('%' :: ps') ts' (by omega) h')
      · match ts with
        | [] => rw [likeMatchAux_char_nil f p ps' hp] at h; exact absurd h (by simp)
        | t :: ts' =>
          rw [likeMatchAux_char_cons f p ps' t ts' hp] at h
          rw [likeMatchAux_char_cons g p ps' t ts' hp]
          by_cases hu : p = '_'
          · rw [if_pos hu] at h ⊢
            exact ih ps' ts' (by omega) h
          · rw [if_neg hu] at h ⊢
            rw [Bool.and_eq_true] at h ⊢
            exact ⟨h.1, ih ps' ts' (by omega) h.2⟩

/-- With fuel at least `2·|l| + 1`, every character list LIKE-matches
itself (literal characters match themselves, `%` can consume the literal
`%`, `_` matches the literal `_`). -/
theorem likeMatchAux_self (l : List Char) : ∀ f, 2 * l.length + 1 ≤ f →
    likeMatchAux f l l = true := by
  induction l with
  | nil =>
    intro f hf
    obtain ⟨g, rfl⟩ : ∃ g', f = g' + 1 := ⟨f - 1, by omega⟩
    rw [likeMatchAux_nil]; rfl
  | cons c ps ih =>
    intro f hf
    obtain ⟨g, rfl⟩ : ∃ g', f = g' + 1 := ⟨f - 1, by omega⟩
    simp only [List.length_cons] at hf
    by_cases hc : c = '%'
    · subst hc
      rw [likeMatchAux_pct_cons]
      obtain ⟨h, rfl⟩ : ∃ h', g = h' + 1 := ⟨g - 1, by omega⟩
      rw [Bool.or_eq_true]
      refine Or.inr ?_
      match ps with
      | [] => rw [likeMatchAux_pct_nil]; exact ih h (by omega)
      | q :: qs =>
        rw [likeMatchAux_pct_cons]
        rw [Bool.or_eq_true]
        exact Or.inl (ih h (by omega))
    · rw [likeMatchAux_char_cons g c ps c ps hc]
      by_cases hu : c = '_'
      · rw [if_pos hu]; exact ih g (by omega)
      · rw [if_neg hu]
        rw [Bool.and_eq_true]
        exact ⟨beq_self_eq_true c, ih g (by omega)⟩

/-- Every character list LIKE-matches itself. -/
theorem likeMatch_self (l : List Char) : likeMatch l l = true :=
  likeMatchAux_self l _ (by omega)

theorem utf8Char_lt_256 (c : Nat) (hc : c < 1114112) :
    ∀ b ∈ utf8Char c, b < 256 := by
  intro b hb
  unfold utf8Char at hb
  split at hb
  · simp only [List.mem_singleton] at hb; omega
  · split at hb
    · simp only [List.mem_cons, List.not_mem_nil, or_false] at hb
      rcases hb with rfl | rfl <;> omega
    · split at hb
      · simp only [List.mem_cons, List.not_mem_nil, or_false] at hb
        rcases hb with rfl | rfl | rfl <;> omega
      · simp only [List.mem_cons, List.not_mem_nil, or_false] at hb
        rcases hb with rfl | rfl | rfl | rfl <;> omega

theorem utf8Encode_lt_256 (s : String) : ∀ b ∈ utf8Encode s, b < 256 := by
  intro b hb
  simp only [utf8Encode, List.mem_flatten, List.mem_map] at hb
  obtain ⟨l, ⟨ch, _, rfl⟩, hbl⟩ := hb
  have hch : ch.toNat < 1114112 := by
    have := ch.valid
    show ch.val.toNat < 1114112
    rcases this with h | h
    · omega
    · omega
  exact utf8Char_lt_256 ch.toNat hch b hbl

theorem toNat_ofNat_of_lt (b : Nat) (h : b < 128) : (Char.ofNat b).toNat = b := by
  have hv : b.isValidChar := Or.inl (by omega)
  simp [Char.ofNat, Char.ofNatAux, hv, Char.toNat]
  rfl

/-- Round trip: UTF-8 encoding the ASCII decoding of an all-ASCII byte
list returns the byte list. -/
theorem utf8Encode_asciiDecode (bs : List Nat) (h : ∀ b ∈ bs, b < 128) :
    utf8Encode (asciiDecode bs) = bs := by
  induction bs with
  | nil => rfl
  | cons b bs ih =>
    have hb : b < 128 := h b (List.mem_cons_self b bs)
    have hbs : ∀ x ∈ bs, x < 128 := fun x hx => h x (List.mem_cons_of_mem b hx)
    show (((b :: bs).map Char.ofNat).map (fun ch => utf8Char ch.toNat)).flatten = b :: bs
    simp only [List.map_cons, List.flatten_cons]
    rw [toNat_ofNat_of_lt b hb]
    have : utf8Char b = [b] := by unfold utf8Char; rw [if_pos hb]
    rw [this]
    have ih' : (((bs).map Char.ofNat).map (fun ch => utf8Char ch.toNat)).flatten = bs := ih hbs
    simp only [List.cons_append, List.nil_append]
    rw [ih']



/-- The rain-chance computation from the code, re-expressed through the
spec's projector: the bands apply only when the latest reading exists
and carries a nonzero humidity. -/
theorem computeRainChance_eq (latest : Option Reading) :
    computeRainChance latest =
      match latest.bind (fun r => r.humidity) with
      | none => 0
      | some h => if h = 0 then 0 else spec_project h := by
  match latest with
  | none => rfl
  | some r =>
    match hr : r.humidity with
    | none => simp [computeRainChance, hr]
    | some h =>
      simp only [computeRainChance, hr, Option.some_bind]
      rw [ite_not]
      rfl

/-- C1 (counterexample): a device with one reading whose humidity is
exactly 0 gets rain chance 0 from the endpoint, while the claimed
four-band rule (`otherwise → 5`) would give 5. -/
theorem c1_rain_chance_counterexample :
    (get_latest_reading 1 [⟨1, "DEV001", "S", some 0, some 0, 1⟩]
        [⟨1, 0, some 20, none, some 0, 1⟩]).toOption.map LatestReading.rain_chance =
      some 0
    ∧ spec_project 0 = 5 := ⟨by decide, by decide⟩

/-- C1 (amended): for every device id that resolves to a device, the
endpoint succeeds, and its rain-chance is the spec's four-band projector
applied to the latest reading's humidity whenever that humidity is
present and nonzero; when the device has no reading, the humidity is
NULL, or the humidity is exactly 0, the result is 0. -/
theorem c1_rain_chance_amended (device_id : Nat) (devices : List Device)
    (readings : List Reading) (d : Device)
    (hfind : devices.find? (fun x => x.id == device_id) = some d) :
    get_latest_reading device_id devices readings =
      .ok { device_id := d.id
          , device_name := d.name
          , temperature := (latestFor readings device_id).bind (fun r => r.temperature)
          , humidity := (latestFor readings device_id).bind (fun r => r.humidity)
          , pressure := (latestFor readings device_id).bind (fun r => r.pressure)
          , timestamp := (latestFor readings device_id).map (fun r => r.timestamp)
          , rain_chance :=
              match (latestFor readings device_id).bind (fun r => r.humidity) with
              | none => 0
              | some h => if h = 0 then 0 else spec_project h } := by
  simp only [get_latest_reading, hfind, computeRainChance_eq]

/-- C1 (witness): the amended statement applied to a device whose latest
reading has humidity 55, landing in the 40-60 band. -/
theorem c1_rain_chance_amended_witness :
    get_latest_reading 1 [⟨1, "DEV001", "S", some 0, some 0, 1⟩]
        [⟨1, 0, some 20, none, some 55, 1⟩] =
      .ok { device_id := 1
          , device_name := "S"
          , temperature := (latestFor [⟨1, 0, some 20, none, some 55, 1⟩] 1).bind
              (fun r => r.temperature)
          , humidity := (latestFor [⟨1, 0, some 20, none, some 55, 1⟩] 1).bind
              (fun r => r.humidity)
          , pressure := (latestFor [⟨1, 0, some 20, none, some 55, 1⟩] 1).bind
              (fun r => r.pressure)
          , timestamp := (latestFor [⟨1, 0, some 20, none, some 55, 1⟩] 1).map
              (fun r => r.timestamp)
          , rain_chance :=
              match (latestFor [⟨1, 0, some 20, none, some 55, 1⟩] 1).bind
                  (fun r => r.humidity) with
              | none => 0
              | some h => if h = 0 then 0 else spec_project h } :=
  c1_rain_chance_amended 1 [⟨1, "DEV001", "S", some 0, some 0, 1⟩]
    [⟨1, 0, some 20, none, some 55, 1⟩] ⟨1, "DEV001", "S", some 0, some 0, 1⟩ (by decide)

/-- C2 (counterexample): calling the token issuer without an explicit
time-to-live embeds an expiry 900 seconds (15 minutes) after issuance,
not the claimed 30 minutes. -/
theorem c2_default_ttl_counterexample :
    create_access_token 0 (some "alice") 0 none = Token.signed 0 (some "alice") 900
    ∧ Token.signed 0 (some "alice") 900 ≠ Token.signed 0 (some "alice") (30 * 60) :=
  ⟨rfl, by decide⟩

/-- C2 (amended): the fallback when no time-to-live is passed is 15
minutes, and the only caller, the login endpoint, always passes an
explicit `ACCESS_TOKEN_EXPIRE_MINUTES = 30` minutes, so session tokens
it issues expire 30 minutes after issuance. -/
theorem c2_default_ttl_amended :
    (∀ (key : Nat) (sub : Option String) (now : Int),
        create_access_token key sub now none = Token.signed key sub (now + 15 * 60))
    ∧ (∀ (key : Nat) (username : String) (now : Int),
        login_issued_token key username now =
          Token.signed key (some username) (now + 30 * 60)) := by
  constructor
  · intro key sub now; rfl
  · intro key username now; rfl

/-- C3 (counterexample): a registration form that omits latitude and
longitude is rejected with 422 by the framework (the fields are declared
required), and no device is created. -/
theorem c3_register_missing_coords_counterexample :
    register_device ⟨some "dev001", some "Station", none, none⟩ (some 1) [] 1 = ⟨422, []⟩
    ∧ (422 : Nat) ≠ 303 := ⟨by decide, by decide⟩

/-- C3 (amended): latitude and longitude are required form fields of
device registration; every request missing either one is rejected with
a 422 validation error and leaves the device table unchanged, so devices
with NULL coordinates are never created through this endpoint. -/
theorem c3_register_missing_coords_amended (form : RegisterForm)
    (userId : Option Nat) (devices : List Device) (nextId : Nat)
    (h : form.latitude = none ∨ form.longitude = none) :
    register_device form userId devices nextId = ⟨422, devices⟩ := by
  cases hcode : form.device_code <;> cases hname : form.device_name <;>
    cases hla : form.latitude <;> cases hlo : form.longitude <;>
      rcases h with h | h <;> simp_all [register_device]

/-- C3 (witness): the amended statement at a form with a latitude but no
longitude. -/
theorem c3_register_missing_coords_amended_witness :
    register_device ⟨some "dev001", some "Station", some 0, none⟩ (some 1) [] 1 =
      ⟨422, []⟩ :=
  c3_register_missing_coords_amended ⟨some "dev001", some "Station", some 0, none⟩
    (some 1) [] 1 (Or.inr rfl)


/-- Validation of a required float field only ever fails with 422. -/
theorem parseRequiredFloat_error (v : Option JsonVal) (e : Nat)
    (h : parseRequiredFloat v = .error e) : e = 422 := by
  cases v with
  | none => simp [parseRequiredFloat] at h; omega
  | some jv =>
    cases jv with
    | num q => simp [parseRequiredFloat] at h
    | null => simp [parseRequiredFloat] at h; omega
    | other => simp [parseRequiredFloat] at h; omega

/-- Validation of the optional float field only ever fails with 422. -/
theorem parseOptionalFloat_error (v : Option JsonVal) (e : Nat)
    (h : parseOptionalFloat v = .error e) : e = 422 := by
  cases v with
  | none => simp [parseOptionalFloat] at h
  | some jv =>
    cases jv with
    | num q => simp [parseOptionalFloat] at h
    | null => simp [parseOptionalFloat] at h
    | other => simp [parseOptionalFloat] at h; omega

/-- Body validation only ever fails with 422. -/
theorem parseSensorData_error (b : RawBody) (e : Nat)
    (h : parseSensorData b = .error e) : e = 422 := by
  unfold parseSensorData at h
  cases ht : parseRequiredFloat b.temperature_c with
  | error e1 =>
    rw [ht] at h
    simp only [Except.error.injEq] at h
    subst h
    exact parseRequiredFloat_error _ _ ht
  | ok t =>
    rw [ht] at h
    cases hh : parseRequiredFloat b.humidity with
    | error e2 =>
      rw [hh] at h
      simp only [Except.error.injEq] at h
      subst h
      exact parseRequiredFloat_error _ _ hh
    | ok hu =>
      rw [hh] at h
      cases hp : parseOptionalFloat b.pressure with
      | error e3 =>
        rw [hp] at h
        simp only [Except.error.injEq] at h
        subst h
        exact parseOptionalFloat_error _ _ hp
      | ok pr =>
        rw [hp] at h
        simp at h

/-- C4 (counterexample): a request with no `deviceCode` header *and* an
invalid payload is answered 422 (payload validation), not the claimed
400: the framework validates the body before the handler's header check
can run. -/
theorem c4_header_first_counterexample :
    receive_sensor_data ⟨none, ⟨none, none, none⟩⟩ [] [] 0 1 = ⟨422, []⟩
    ∧ (422 : Nat) ≠ 400 := ⟨by decide, by decide⟩

/-- C4 (amended): payload validation runs first, at the framework
boundary: every request whose JSON body fails `SensorData` validation is
rejected with 422 regardless of the header; among requests with a valid
payload, an absent or empty `deviceCode` header yields 400 before any
device lookup, and in both cases no reading is stored. -/
theorem c4_validation_order_amended (req : RawRequest) (devices : List Device)
    (readings : List Reading) (now : Int) (nextId : Nat) :
    (∀ e, parseSensorData req.body = .error e →
        receive_sensor_data req devices readings now nextId = ⟨422, readings⟩)
    ∧ (∀ sd, parseSensorData req.body = .ok sd →
        req.deviceCode = none ∨ req.deviceCode = some "" →
        receive_sensor_data req devices readings now nextId = ⟨400, readings⟩) := by
  constructor
  · intro e he
    have h422 : e = 422 := parseSensorData_error _ _ he
    subst h422
    simp [receive_sensor_data, he]
  · intro sd hsd hdc
    rcases hdc with h | h <;> simp [receive_sensor_data, hsd, h]

/-- C4 (witness): the amended statement at a request with a valid body
and a missing header (400), after also discharging the 422 branch on a
different request inside the same conjunction. -/
theorem c4_validation_order_amended_witness :
    receive_sensor_data ⟨none, ⟨some (JsonVal.num 21), some (JsonVal.num 55), none⟩⟩
        [] [] 0 1 = ⟨400, []⟩ :=
  (c4_validation_order_amended
      ⟨none, ⟨some (JsonVal.num 21), some (JsonVal.num 55), none⟩⟩ [] [] 0 1).2
    ⟨21, 55, none⟩ (by decide) (Or.inl rfl)

/-- C5 (confirmed): registering code `"dev001"` stores it upper-cased as
`"DEV001"`, and a lookup by any case variant of those letters (any
string whose lower-casing agrees with `"dev001"`) finds that device. -/
theorem c5_case_insensitive_roundtrip (s : String)
    (h : lowerData s = lowerData "DEV001") :
    (register_device ⟨some "dev001", some "Station", some 0, some 0⟩
        (some 1) [] 1).devices = [⟨1, "DEV001", "Station", some 0, some 0, 1⟩]
    ∧ findDeviceByCode
        (register_device ⟨some "dev001", some "Station", some 0, some 0⟩
          (some 1) [] 1).devices s =
        some ⟨1, "DEV001", "Station", some 0, some 0, 1⟩ := by
  have hreg : (register_device ⟨some "dev001", some "Station", some 0, some 0⟩
      (some 1) [] 1).devices = [⟨1, "DEV001", "Station", some 0, some 0, 1⟩] := by
    decide
  refine ⟨hreg, ?_⟩
  rw [hreg]
  have hmatch : ilikeMatch "DEV001" s = true := by
    unfold ilikeMatch
    rw [h]
    exact likeMatch_self _
  unfold findDeviceByCode
  simp [List.find?, hmatch]

/-- C5 (witness): the round trip at the mixed-case lookup `"DeV001"`. -/
theorem c5_case_insensitive_roundtrip_witness :
    (register_device ⟨some "dev001", some "Station", some 0, some 0⟩
        (some 1) [] 1).devices = [⟨1, "DEV001", "Station", some 0, some 0, 1⟩]
    ∧ findDeviceByCode
        (register_device ⟨some "dev001", some "Station", some 0, some 0⟩
          (some 1) [] 1).devices "DeV001" =
        some ⟨1, "DEV001", "Station", some 0, some 0, 1⟩ :=
  c5_case_insensitive_roundtrip "DeV001" (by decide)

/-- C6 (confirmed): an ingestion request with a valid payload whose
trimmed, non-empty device code matches no registered device is answered
404 and leaves the readings table unchanged. -/
theorem c6_unknown_device_404 (req : RawRequest) (code : String)
    (devices : List Device) (readings : List Reading) (now : Int) (nextId : Nat)
    (sd : SensorData) (hbody : parseSensorData req.body = .ok sd)
    (hdr : req.deviceCode = some code) (hne : code ≠ "")
    (hfind : findDeviceByCode devices (pyStrip code) = none) :
    receive_sensor_data req devices readings now nextId = ⟨404, readings⟩ := by
  simp [receive_sensor_data, hbody, hdr, hne, hfind]

/-- C6 (witness): a concrete unknown code (with surrounding whitespace)
against a one-device table. -/
theorem c6_unknown_device_404_witness :
    receive_sensor_data
        ⟨some " NOPE ", ⟨some (JsonVal.num 21), some (JsonVal.num 55), none⟩⟩
        [⟨1, "DEV001", "S", some 0, some 0, 1⟩] [] 0 1 = ⟨404, []⟩ :=
  c6_unknown_device_404
    ⟨some " NOPE ", ⟨some (JsonVal.num 21), some (JsonVal.num 55), none⟩⟩
    " NOPE " [⟨1, "DEV001", "S", some 0, some 0, 1⟩] [] 0 1
    ⟨21, 55, none⟩ (by decide) rfl (by decide) (by decide)


/-- Every byte of a modelled digest over an ASCII 16-byte salt is ASCII. -/
theorem bcrypt_hashpw_ascii (p : String) (salt : List Nat)
    (hascii : ∀ b ∈ salt, b < 128) :
    ∀ b ∈ bcrypt_hashpw ((utf8Encode p).take 72) salt, b < 128 := by
  intro b hb
  unfold bcrypt_hashpw at hb
  rw [List.append_assoc] at hb
  rcases List.mem_append.mp hb with hb | hb
  · fin_cases hb <;> norm_num
  · rcases List.mem_append.mp hb with hb | hb
    · exact hascii b hb
    · unfold bcryptCore at hb
      rcases List.mem_flatMap.mp hb with ⟨x, hx, hbx⟩
      have hx256 : x < 256 := by
        rcases List.mem_append.mp hx with hx | hx
        · have h1 : x ∈ (utf8Encode p).take 72 := List.take_subset _ _ hx
          have h2 : x ∈ utf8Encode p := List.take_subset _ _ h1
          exact utf8Encode_lt_256 p x h2
        · exact lt_trans (hascii x hx) (by norm_num)
      unfold hexByte at hbx
      simp only [List.mem_cons, List.not_mem_nil, or_false] at hbx
      rcases hbx with rfl | rfl <;> omega

/-- C7 (confirmed): for every password and every (well-formed, ASCII)
salt bcrypt would generate, verifying a password against its own fresh
hash succeeds: the 72-byte truncation is applied identically on the hash
path and the verify path. -/
theorem c7_verify_hash_roundtrip (p : String) (salt : List Nat)
    (hlen : salt.length = 16) (hascii : ∀ b ∈ salt, b < 128) :
    verify_password p (get_password_hash p salt) = true := by
  have hDlt : ∀ b ∈ bcrypt_hashpw ((utf8Encode p).take 72) salt, b < 128 :=
    bcrypt_hashpw_ascii p salt hascii
  have hdec : utf8Encode (get_password_hash p salt) =
      bcrypt_hashpw ((utf8Encode p).take 72) salt :=
    utf8Encode_asciiDecode _ hDlt
  unfold verify_password
  rw [hdec]
  have hmag : bcryptMagic.length = 4 := rfl
  have h1 : (bcrypt_hashpw ((utf8Encode p).take 72) salt).take 4 = bcryptMagic := by
    unfold bcrypt_hashpw
    rw [List.append_assoc, ← hmag, List.take_left]
  have h2 : 20 ≤ (bcrypt_hashpw ((utf8Encode p).take 72) salt).length := by
    unfold bcrypt_hashpw
    simp [List.length_append, hlen, bcryptMagic]
  have h3 : ((bcrypt_hashpw ((utf8Encode p).take 72) salt).drop 4).take 16 = salt := by
    unfold bcrypt_hashpw
    rw [List.append_assoc, ← hmag, List.drop_left, ← hlen, List.take_left]
  unfold bcrypt_checkpw
  rw [if_pos ⟨h1, h2⟩, h3]
  simp

/-- C7 (witness): the round trip at the password `"secret"` and a
concrete 16-byte ASCII salt. -/
theorem c7_verify_hash_roundtrip_witness :
    verify_password "secret" (get_password_hash "secret" (List.replicate 16 65)) =
      true :=
  c7_verify_hash_roundtrip "secret" (List.replicate 16 65) (by decide)
    (by intro b hb; rw [List.eq_of_mem_replicate hb]; norm_num)

/-- C8 (confirmed): for every plaintext and every stored digest string
that is structurally invalid (it does not start with the bcrypt format
marker, or is too short to carry a salt), verification returns `false`:
the `ValueError` the bcrypt layer raises is caught and mapped to a
boolean, never propagated. -/
theorem c8_verify_malformed_false (plain hashed : String)
    (h : ¬((utf8Encode hashed).take 4 = bcryptMagic ∧ 20 ≤ (utf8Encode hashed).length)) :
    verify_password plain hashed = false := by
  unfold verify_password bcrypt_checkpw
  rw [if_neg h]

/-- C8 (witness): a corrupt stored digest verifies as `false`. -/
theorem c8_verify_malformed_false_witness :
    verify_password "secret" "nothash" = false :=
  c8_verify_malformed_false "secret" "nothash" (by decide)

/-- C9 (confirmed): the session resolver yields no user when the cookie
is absent, when the cookie is empty, when token validation fails for any
reason, when the token is valid but has no subject claim, and when the
subject names no existing user; and conversely any resolved user comes
from a correctly signed, unexpired token whose subject is that user's
username. -/
theorem c9_session_resolver_cases (key : Nat) (now : Int) (users : List DBUser) :
    (get_current_user none key now users = none)
    ∧ (get_current_user (some Token.empty) key now users = none)
    ∧ (∀ t : Token, (∃ err, jwt_decode t key now = .error err) →
        get_current_user (some t) key now users = none)
    ∧ (∀ (k : Nat) (exp : Int),
        get_current_user (some (Token.signed k none exp)) key now users = none)
    ∧ (∀ (k : Nat) (s : String) (exp : Int),
        users.find? (fun u => u.username == s) = none →
        get_current_user (some (Token.signed k (some s) exp)) key now users = none)
    ∧ (∀ (cookie : Option Token) (u : DBUser),
        get_current_user cookie key now users = some u →
        ∃ (s : String) (exp : Int),
          cookie = some (Token.signed key (some s) exp) ∧ ¬ exp < now ∧
          users.find? (fun x => x.username == s) = some u) := by
  refine ⟨rfl, rfl, ?_, ?_, ?_, ?_⟩
  · intro t ⟨err, herr⟩
    by_cases ht : t = Token.empty
    · simp [get_current_user, ht]
    · simp [get_current_user, ht, herr]
  · intro k exp
    by_cases hk : k = key
    · subst hk
      by_cases hexp : exp < now
      · simp [get_current_user, jwt_decode, hexp]
      · simp [get_current_user, jwt_decode, hexp]
    · simp [get_current_user, jwt_decode, hk]
  · intro k s exp hfind
    by_cases hk : k = key
    · subst hk
      by_cases hexp : exp < now
      · simp [get_current_user, jwt_decode, hexp]
      · simp [get_current_user, jwt_decode, hexp, hfind]
    · simp [get_current_user, jwt_decode, hk]
  · intro cookie u h
    match cookie with
    | none => exact absurd h (by simp [get_current_user])
    | some Token.empty => exact absurd h (by simp [get_current_user])
    | some Token.malformed => exact absurd h (by simp [get_current_user, jwt_decode])
    | some (Token.signed k sub exp) =>
      by_cases hk : k = key
      · subst hk
        by_cases hexp : exp < now
        · exact absurd h (by simp [get_current_user, jwt_decode, hexp])
        · match sub with
          | none => exact absurd h (by simp [get_current_user, jwt_decode, hexp])
          | some s =>
            refine ⟨s, exp, rfl, hexp, ?_⟩
            simpa [get_current_user, jwt_decode, hexp] using h
      · exact absurd h (by simp [get_current_user, jwt_decode, hk])

/-- C9 (witness): the resolver on a malformed cookie token yields none. -/
theorem c9_session_resolver_cases_witness :
    get_current_user (some Token.malformed) 5 0 [] = none :=
  (c9_session_resolver_cases 5 0 []).2.2.1 Token.malformed ⟨JWTError.malformed, rfl⟩

/-- C10 (confirmed): device lookup uses LIKE pattern matching, which
subsumes case-insensitive equality (any lookup string whose lower-casing
equals the stored code's lower-casing matches) and is strictly more
permissive: the patterns `"%"` and `"DEV__1"` both return the device
stored as `"DEV001"` although neither equals it after case folding. -/
theorem c10_ilike_pattern_matching :
    (∀ pat stored : String, lowerData pat = lowerData stored →
        ilikeMatch stored pat = true)
    ∧ (findDeviceByCode [⟨1, "DEV001", "S", some 0, some 0, 1⟩] "%" =
          some ⟨1, "DEV001", "S", some 0, some 0, 1⟩
        ∧ lowerData "%" ≠ lowerData "DEV001")
    ∧ (findDeviceByCode [⟨1, "DEV001", "S", some 0, some 0, 1⟩] "DEV__1" =
          some ⟨1, "DEV001", "S", some 0, some 0, 1⟩
        ∧ lowerData "DEV__1" ≠ lowerData "DEV001") := by
  refine ⟨?_, ⟨by decide, by decide⟩, ⟨by decide, by decide⟩⟩
  intro pat stored h
  unfold ilikeMatch
  rw [h]
  exact likeMatch_self _

/-- C10 (witness): the containment direction at a concrete pair of
case variants. -/
theorem c10_ilike_pattern_matching_witness :
    ilikeMatch "ABC" "abc" = true :=
  c10_ilike_pattern_matching.1 "abc" "ABC" (by decide)

end RainWatch
